import Mathlib

/-!
Verification development for the BME690 SensorAPI ESP-IDF example code
(`examples/common/common.c` and `examples/sequential_mode/sequential_mode.c`).

The two C files under `src/` are shallowly embedded below.  Result codes and
other header constants (`bme69x_defs.h`, `coines.h` are not part of the two
source files) are given their vendor values; only their distinctness matters
to any theorem.  Library functions whose bodies are not in the sources
(`bme69x_get_meas_dur`, `bme69x_set_heatr_conf`, the device-side sequential
gas-index counter) are modelled from the specification and carry a doc
comment saying so.
-/

/- Result codes from bme69x_defs.h (header not in the sources; values are the
   vendor ones, used only as distinct tags). -/

def BME69X_OK : Int := 0

def BME69X_E_NULL_PTR : Int := -1

def BME69X_E_COM_FAIL : Int := -2

def BME69X_E_DEV_NOT_FOUND : Int := -3

def BME69X_E_INVALID_LENGTH : Int := -4

def BME69X_E_SELF_TEST : Int := -5

def BME69X_W_NO_NEW_DATA : Int := 2

/- Operating modes from bme69x_defs.h. -/

def BME69X_SLEEP_MODE : Nat := 0

def BME69X_FORCED_MODE : Nat := 1

def BME69X_PARALLEL_MODE : Nat := 2

def BME69X_SEQUENTIAL_MODE : Nat := 3

/- Interface selectors from bme69x_defs.h (enum bme69x_intf: SPI first). -/

def BME69X_SPI_INTF : Nat := 0

def BME69X_I2C_INTF : Nat := 1

/- Other header constants used by common.c. -/

def BME69X_SHUTTLE_ID : Nat := 0x93

def BME69X_I2C_ADDR_LOW : Nat := 0x76

def BME69X_ENABLE : Bool := true

def BME69X_FILTER_OFF : Nat := 0

def BME69X_ODR_NONE : Nat := 8

def COINES_SUCCESS : Int := 0

def COINES_SHUTTLE_PIN_7 : Nat := 9

def COINES_I2C_BUS_0 : Nat := 0

def COINES_SPI_BUS_0 : Nat := 0

/- Oversampling levels from bme69x_defs.h: OFF, 1x, 2x, 4x, 8x, 16x.
   The configuration invariant (spec section 3) restricts the fields to these
   six register encodings, so they are embedded as `Fin 6`. -/

def BME69X_OS_NONE : Fin 6 := 0

def BME69X_OS_1X : Fin 6 := 1

def BME69X_OS_2X : Fin 6 := 2

def BME69X_OS_4X : Fin 6 := 3

def BME69X_OS_8X : Fin 6 := 4

def BME69X_OS_16X : Fin 6 := 5

/-- `struct bme69x_conf` (the fields used by the sequential-mode example). -/
structure Bme69xConf where
  os_hum : Fin 6
  os_temp : Fin 6
  os_pres : Fin 6
  filter : Nat
  odr : Nat
deriving DecidableEq

/-- `struct bme69x_heatr_conf` (the fields used by the sequential-mode
example): heater enable flag, temperature profile (deg C), duration profile
(milliseconds), and the number of profile steps in use. -/
structure Bme69xHeatrConf where
  enable : Bool
  heatr_temp_prof : List Nat
  heatr_dur_prof : List Nat
  profile_len : Nat
deriving DecidableEq

/-- Samples taken per oversampling level (OFF, 1x, 2x, 4x, 8x, 16x).
Part of the vendor duration formula, see `bme69x_get_meas_dur`. -/
def os_to_meas_cycles : Fin 6 → Nat
  | 0 => 0
  | 1 => 1
  | 2 => 2
  | 3 => 4
  | 4 => 8
  | 5 => 16

/-- Modelled from the spec: the body of `bme69x_get_meas_dur` is not under
`src/` (the sources only call it at sequential_mode.c:84).  Spec section 4.3:
"`measurement_duration(config)` is a function of the oversampling settings
...; it must reproduce the vendor-specified duration formula (base per-stage
constants per oversampling level, summed, plus fixed overhead)".  The value is
in microseconds: per-sample integration time times the summed oversampling
cycles, plus TPH switching and gas-measurement overhead, plus a wake-up
overhead outside parallel mode. -/
def bme69x_get_meas_dur (op_mode : Nat) (conf : Bme69xConf) : Nat :=
  (os_to_meas_cycles conf.os_temp + os_to_meas_cycles conf.os_pres +
      os_to_meas_cycles conf.os_hum) * 1963 +
    477 * 4 + 477 * 5 +
    (if op_mode ≠ BME69X_PARALLEL_MODE then 1000 else 0)

/-- Pointer values that can be stored in a device handle's `intf_ptr`.
`devAddrSlot` is the address of the single static `dev_addr` byte in
common.c; `other` is any other address in the ambient memory. -/
inductive Ptr where
  | devAddrSlot
  | other (addr : Nat)
deriving DecidableEq

/-- Reading one byte through a pointer: the static `dev_addr` slot holds
`dev_addr`, every other address is resolved by the ambient memory `mem`. -/
def derefU8 (dev_addr : Nat) (mem : Nat → Nat) : Ptr → Nat
  | Ptr.devAddrSlot => dev_addr
  | Ptr.other a => mem a

/-- Tags for the bus read callbacks a handle's `read` field can point at. -/
inductive ReadFn where
  | i2cRead
  | spiRead
deriving DecidableEq

/-- Tags for the bus write callbacks a handle's `write` field can point at. -/
inductive WriteFn where
  | i2cWrite
  | spiWrite
deriving DecidableEq

/-- Tag for the delay callback a handle's `delay_us` field can point at. -/
inductive DelayFn where
  | delayUs
deriving DecidableEq

/-- `struct bme69x_dev` (the fields common.c assigns).  Function-pointer
fields are `Option`-valued so that an uninitialized field is representable:
common.c leaves `read`, `write` and `intf` untouched on the fall-through
interface branch. -/
structure Bme69xDev where
  read : Option ReadFn
  write : Option WriteFn
  intf : Option Nat
  delay_us : Option DelayFn
  intf_ptr : Ptr
  amb_temp : Int
deriving DecidableEq

/-- The bus transaction a wrapper issues to the COINES layer: which bus, the
device address it resolved, the register address, and the (uint16-truncated)
length. -/
structure BusOp where
  bus : Nat
  device_addr : Nat
  reg_addr : Nat
  len : Nat
deriving DecidableEq

/-- common.c `bme69x_i2c_read`: dereferences `intf_ptr` for the device
address and issues a COINES I2C read on bus 0 with the length cast to
uint16. -/
def bme69x_i2c_read (dev_addr : Nat) (mem : Nat → Nat) (reg_addr len : Nat)
    (intf_ptr : Ptr) : BusOp :=
  { bus := COINES_I2C_BUS_0, device_addr := derefU8 dev_addr mem intf_ptr,
    reg_addr := reg_addr, len := len % 2 ^ 16 }

/-- common.c `bme69x_i2c_write`: dereferences `intf_ptr` for the device
address and issues a COINES I2C write on bus 0 with the length cast to
uint16 (the payload bytes are passed through unchanged). -/
def bme69x_i2c_write (dev_addr : Nat) (mem : Nat → Nat) (reg_addr len : Nat)
    (intf_ptr : Ptr) : BusOp :=
  { bus := COINES_I2C_BUS_0, device_addr := derefU8 dev_addr mem intf_ptr,
    reg_addr := reg_addr, len := len % 2 ^ 16 }

/-- common.c `bme69x_spi_read`: dereferences `intf_ptr` for the device
address and issues a COINES SPI read on bus 0 with the length cast to
uint16. -/
def bme69x_spi_read (dev_addr : Nat) (mem : Nat → Nat) (reg_addr len : Nat)
    (intf_ptr : Ptr) : BusOp :=
  { bus := COINES_SPI_BUS_0, device_addr := derefU8 dev_addr mem intf_ptr,
    reg_addr := reg_addr, len := len % 2 ^ 16 }

/-- common.c `bme69x_spi_write`: dereferences `intf_ptr` for the device
address and issues a COINES SPI write on bus 0 with the length cast to
uint16 (the payload bytes are passed through unchanged). -/
def bme69x_spi_write (dev_addr : Nat) (mem : Nat → Nat) (reg_addr len : Nat)
    (intf_ptr : Ptr) : BusOp :=
  { bus := COINES_SPI_BUS_0, device_addr := derefU8 dev_addr mem intf_ptr,
    reg_addr := reg_addr, len := len % 2 ^ 16 }

/-- One branch of the `switch` in common.c `bme69x_check_rslt`: which message
(if any) the function prints for a result code.  `warnNoNewData` is the only
branch printed as a Warning; all `err*` branches print as Error. -/
inductive RsltClass where
  | ok
  | errNullPtr
  | errComFail
  | errInvalidLength
  | errDevNotFound
  | errSelfTest
  | warnNoNewData
  | errUnknown
deriving DecidableEq

/-- Whether a `bme69x_check_rslt` branch prints a Warning message. -/
def RsltClass.isWarning : RsltClass → Bool
  | RsltClass.warnNoNewData => true
  | _ => false

/-- Whether a `bme69x_check_rslt` branch prints an Error message. -/
def RsltClass.isError : RsltClass → Bool
  | RsltClass.ok => false
  | RsltClass.warnNoNewData => false
  | _ => true

/-- common.c `bme69x_check_rslt`: classify a result code exactly as the
`switch` does (the function only prints; it never alters control flow). -/
def bme69x_check_rslt (rslt : Int) : RsltClass :=
  if rslt = BME69X_OK then RsltClass.ok
  else if rslt = BME69X_E_NULL_PTR then RsltClass.errNullPtr
  else if rslt = BME69X_E_COM_FAIL then RsltClass.errComFail
  else if rslt = BME69X_E_INVALID_LENGTH then RsltClass.errInvalidLength
  else if rslt = BME69X_E_DEV_NOT_FOUND then RsltClass.errDevNotFound
  else if rslt = BME69X_E_SELF_TEST then RsltClass.errSelfTest
  else if rslt = BME69X_W_NO_NEW_DATA then RsltClass.warnNoNewData
  else RsltClass.errUnknown

/-- Environment inputs to `bme69x_interface_init`: what the COINES calls it
makes would return. -/
structure CoinesEnv where
  openCommResult : Int
  boardInfoResult : Int
  shuttle_id : Nat
deriving DecidableEq

/-- The observable COINES-layer side effects `bme69x_interface_init`
performs, in order. -/
inductive CoinesEv where
  | openComm
  | printNoBoard
  | exitProc (code : Int)
  | getBoardInfo
  | printWarnShuttle (found expected : Nat)
  | printIntfI2C
  | setPinSdoLow
  | configI2cBus
  | printIntfSPI
  | configSpiBus
  | setVdd (vdd vddio : Nat)
  | delayMs (ms : Nat)
deriving DecidableEq

/-- How a call to `bme69x_interface_init` ends: either the process exits
(the `exit(result)` branch) or the function returns a result code. -/
inductive InitOutcome where
  | exited (code : Int)
  | returned (rslt : Int)
deriving DecidableEq

/-- The full effect of one `bme69x_interface_init` call: its outcome, the
handle contents afterwards, the static `dev_addr` slot afterwards, and the
COINES operations performed. -/
structure InitResult where
  outcome : InitOutcome
  bme : Option Bme69xDev
  dev_addr : Nat
  events : List CoinesEv
deriving DecidableEq

/-- common.c `bme69x_interface_init`, as a function of the environment, the
current static `dev_addr`, the handle (`none` embeds a NULL pointer) and the
interface selector.  Mirrors the source control flow: NULL handle returns
`BME69X_E_NULL_PTR` with no side effect; a failed `coines_open_comm_intf`
prints and exits the process; an unexpected shuttle ID only prints a warning;
the I2C/SPI branches set `dev_addr` and the bus callbacks; every non-exit
path ends by setting `delay_us`, pointing `intf_ptr` at the static `dev_addr`
slot, setting `amb_temp` to 25, and returning `BME69X_OK`. -/
def bme69x_interface_init (env : CoinesEnv) (dev_addr : Nat)
    (bme : Option Bme69xDev) (intf : Nat) : InitResult :=
  match bme with
  | none =>
    { outcome := InitOutcome.returned BME69X_E_NULL_PTR, bme := none,
      dev_addr := dev_addr, events := [] }
  | some b =>
    if env.openCommResult < COINES_SUCCESS then
      { outcome := InitOutcome.exited env.openCommResult, bme := some b,
        dev_addr := dev_addr,
        events := [CoinesEv.openComm, CoinesEv.printNoBoard,
          CoinesEv.exitProc env.openCommResult] }
    else
      let preEvents : List CoinesEv :=
        [CoinesEv.openComm, CoinesEv.getBoardInfo] ++
          (if env.boardInfoResult = COINES_SUCCESS then
            (if env.shuttle_id ≠ BME69X_SHUTTLE_ID then
              [CoinesEv.printWarnShuttle env.shuttle_id BME69X_SHUTTLE_ID]
            else [])
          else []) ++
          [CoinesEv.setVdd 0 0, CoinesEv.delayMs 100]
      let postEvents : List CoinesEv :=
        [CoinesEv.delayMs 100, CoinesEv.setVdd 3300 3300, CoinesEv.delayMs 100]
      if intf = BME69X_I2C_INTF then
        { outcome := InitOutcome.returned BME69X_OK,
          bme := some { b with
            read := some ReadFn.i2cRead,
            write := some WriteFn.i2cWrite, intf := some BME69X_I2C_INTF,
            delay_us := some DelayFn.delayUs, intf_ptr := Ptr.devAddrSlot,
            amb_temp := 25 },
          dev_addr := BME69X_I2C_ADDR_LOW,
          events := preEvents ++
            [CoinesEv.printIntfI2C, CoinesEv.setPinSdoLow,
              CoinesEv.configI2cBus] ++ postEvents }
      else if intf = BME69X_SPI_INTF then
        { outcome := InitOutcome.returned BME69X_OK,
          bme := some { b with
            read := some ReadFn.spiRead,
            write := some WriteFn.spiWrite, intf := some BME69X_SPI_INTF,
            delay_us := some DelayFn.delayUs, intf_ptr := Ptr.devAddrSlot,
            amb_temp := 25 },
          dev_addr := COINES_SHUTTLE_PIN_7,
          events := preEvents ++
            [CoinesEv.printIntfSPI, CoinesEv.configSpiBus] ++ postEvents }
      else
        { outcome := InitOutcome.returned BME69X_OK,
          bme := some { b with
            delay_us := some DelayFn.delayUs,
            intf_ptr := Ptr.devAddrSlot, amb_temp := 25 },
          dev_addr := dev_addr,
          events := preEvents ++ postEvents }

/-- Modelled from the spec: the body of `bme69x_set_heatr_conf` is not under
`src/` (the sources only call it at sequential_mode.c:71).  Spec section 4.2:
"`set_profile(mode, HeaterProfile) -> () | Fail(NullHandle | InvalidLength)`.
Validates `1 ≤ steps ≤ 10`; rejects otherwise with InvalidLength."  A missing
device handle yields the NullHandle error. -/
def bme69x_set_heatr_conf (op_mode : Nat) (hc : Bme69xHeatrConf)
    (dev : Option Bme69xDev) : Int :=
  match dev with
  | none => BME69X_E_NULL_PTR
  | some _ =>
    if 1 ≤ hc.profile_len ∧ hc.profile_len ≤ 10 then BME69X_OK
    else BME69X_E_INVALID_LENGTH

/-- Modelled from the spec: the device-side heater-profile cursor behind
`bme69x_get_data` is not under `src/`.  Spec section 4.2: "For SEQUENTIAL
mode the table is consumed cyclically: profile index
`= measurement_count mod steps.length`"; section 4.4: the `gas_profile_index`
of a record is the cursor position the device reports for that measurement.
The state holds the applied profile length and the cursor. -/
structure SeqDeviceState where
  profile_len : Nat
  cursor : Nat
deriving DecidableEq

/-- Modelled from the spec: entering SEQUENTIAL mode starts the device's
profile cursor at step 0 for the applied profile. -/
def seqDeviceStart (len : Nat) : SeqDeviceState :=
  { profile_len := len, cursor := 0 }

/-- Modelled from the spec: one sequential measurement reports the current
cursor as the record's `gas_profile_index` and advances the cursor
cyclically over the profile table. -/
def seqDeviceStep (s : SeqDeviceState) : Nat × SeqDeviceState :=
  (s.cursor, { profile_len := s.profile_len,
               cursor := (s.cursor + 1) % s.profile_len })

/-- Device state after `k` sequential measurements since SEQUENTIAL mode was
entered with a profile of length `len`. -/
def seqDeviceRun (len : Nat) : Nat → SeqDeviceState
  | 0 => seqDeviceStart len
  | k + 1 => (seqDeviceStep (seqDeviceRun len k)).2

/-- The `gas_profile_index` the device reports for measurement number `k`
(counting from 0) in sequential mode with a profile of length `len`. -/
def gas_index (len k : Nat) : Nat :=
  (seqDeviceStep (seqDeviceRun len k)).1

/- --------- sequential_mode.c: the acquisition loop --------- -/

/-- sequential_mode.c `SAMPLE_COUNT`. -/
def SAMPLE_COUNT : Nat := 300

/-- sequential_mode.c:84: the delay period in microseconds, recomputed each
iteration: the measurement duration for sequential mode under the current
configuration plus the first heater-profile step's duration (milliseconds,
times 1000), evaluated in uint32 arithmetic. -/
def del_period (conf : Bme69xConf) (hc : Bme69xHeatrConf) : Nat :=
  (bme69x_get_meas_dur BME69X_SEQUENTIAL_MODE conf +
      hc.heatr_dur_prof.headD 0 * 1000) % 2 ^ 32

/-- What one `bme69x_get_data` poll returns to the loop: the result code and
the number of fields delivered. -/
structure PollResult where
  rslt : Int
  n_fields : Nat
deriving DecidableEq

/-- The observable steps of one loop iteration, in source order. -/
inductive LoopEv where
  | delay (us : Nat)
  | getMillis
  | getData
  | report (c : RsltClass)
  | printField
deriving DecidableEq

/-- The body of the `while` loop in sequential_mode.c (lines 81-120), for one
iteration whose poll returns `p`: compute `del_period` and block on
`delay_us`, read the millisecond clock, call `bme69x_get_data`, report its
result via `bme69x_check_rslt`, then print one line per returned field. -/
def seqLoopBody (conf : Bme69xConf) (hc : Bme69xHeatrConf) (p : PollResult) :
    List LoopEv :=
  LoopEv.delay (del_period conf hc) :: LoopEv.getMillis :: LoopEv.getData ::
    LoopEv.report (bme69x_check_rslt p.rslt) ::
    List.replicate p.n_fields LoopEv.printField

/-- The `while (sample_count <= SAMPLE_COUNT)` loop of sequential_mode.c,
driven by the stream `polls` of poll outcomes the environment will deliver:
while the condition holds and outcomes remain, one body runs and
`sample_count` (a uint16) grows by the number of fields printed.  Returns
the event trace and the final `sample_count`. -/
def runSeqLoop (conf : Bme69xConf) (hc : Bme69xHeatrConf) :
    Nat → List PollResult → List LoopEv × Nat
  | sc, [] => ([], sc)
  | sc, p :: ps =>
    if sc ≤ SAMPLE_COUNT then
      let r := runSeqLoop conf hc ((sc + p.n_fields) % 2 ^ 16) ps
      (seqLoopBody conf hc p ++ r.1, r.2)
    else ([], sc)

/-- Trace checker: scanning left to right, a `getData` event may only occur
while the armed flag is set, and the flag is set exactly by a preceding
`delay` of at least `want` microseconds with no `getData` in between (each
poll consumes the arming). -/
def delayPrecedesPoll (want : Nat) : List LoopEv → Bool → Bool
  | [], _ => true
  | LoopEv.delay d :: rest, _ => delayPrecedesPoll want rest (decide (want ≤ d))
  | LoopEv.getData :: rest, armed => armed && delayPrecedesPoll want rest false
  | _ :: rest, armed => delayPrecedesPoll want rest armed

/- --------- concrete values from sequential_mode.c main --------- -/

/-- sequential_mode.c:38: the heater temperature profile. -/
def temp_prof : List Nat :=
  [200, 240, 280, 320, 360, 360, 320, 280, 240, 200]

/-- sequential_mode.c:41: the heating duration profile (milliseconds). -/
def dur_prof : List Nat :=
  [100, 100, 100, 100, 100, 100, 100, 100, 100, 100]

/-- The configuration sequential_mode.c installs (lines 58-62). -/
def exampleConf : Bme69xConf :=
  { os_hum := BME69X_OS_16X, os_temp := BME69X_OS_2X, os_pres := BME69X_OS_1X,
    filter := BME69X_FILTER_OFF, odr := BME69X_ODR_NONE }

/-- The heater configuration sequential_mode.c installs (lines 67-70). -/
def exampleHeatr : Bme69xHeatrConf :=
  { enable := BME69X_ENABLE, heatr_temp_prof := temp_prof,
    heatr_dur_prof := dur_prof, profile_len := 10 }

/-- A device handle with no field initialized, as `struct bme69x_dev bme;`
leaves it on the example's stack (a concrete representative of the
indeterminate contents). -/
def exampleDev : Bme69xDev :=
  { read := none, write := none, intf := none, delay_us := none,
    intf_ptr := Ptr.other 0, amb_temp := 0 }

/-- A poll outcome carrying the no-new-data warning and zero fields. -/
def noNewPoll : PollResult :=
  { rslt := BME69X_W_NO_NEW_DATA, n_fields := 0 }

/- --------- helper lemmas --------- -/

theorem seqDeviceRun_profile_len (len k : Nat) :
    (seqDeviceRun len k).profile_len = len := by
  induction k with
  | zero => rfl
  | succ k ih => simp [seqDeviceRun, seqDeviceStep, ih]

theorem seqDeviceRun_cursor (len k : Nat) (h : 0 < len) :
    (seqDeviceRun len k).cursor = k % len := by
  induction k with
  | zero => simp [seqDeviceRun, seqDeviceStart]
  | succ k ih =>
    simp [seqDeviceRun, seqDeviceStep, ih, seqDeviceRun_profile_len,
      Nat.mod_add_mod]

/- --------- claim theorems --------- -/

/-- C8: calling `bme69x_interface_init` with a NULL device handle returns the
null-pointer error code and performs no COINES (bus, board or delay)
operation: the static `dev_addr` slot is returned unchanged and the event
trace is empty. -/
theorem interface_init_null_handle (env : CoinesEnv) (da : Nat) (intf : Nat) :
    bme69x_interface_init env da none intf =
      { outcome := InitOutcome.returned BME69X_E_NULL_PTR, bme := none,
        dev_addr := da, events := [] } := rfl

/-- C2: for every heater profile with `1 ≤ profile_len ≤ 10`,
`bme69x_set_heatr_conf` (on a non-null handle) succeeds; for
`profile_len = 0` or `profile_len > 10` it fails with the invalid-length
error. -/
theorem set_heatr_conf_len_validation (m : Nat) (hc : Bme69xHeatrConf)
    (b : Bme69xDev) :
    (1 ≤ hc.profile_len ∧ hc.profile_len ≤ 10 →
      bme69x_set_heatr_conf m hc (some b) = BME69X_OK) ∧
    (hc.profile_len = 0 ∨ 10 < hc.profile_len →
      bme69x_set_heatr_conf m hc (some b) = BME69X_E_INVALID_LENGTH) := by
  constructor
  · intro h
    simp [bme69x_set_heatr_conf, h]
  · intro h
    have hn : ¬ (1 ≤ hc.profile_len ∧ hc.profile_len ≤ 10) := by omega
    simp [bme69x_set_heatr_conf, hn]

theorem set_heatr_conf_len_validation_witness :
    bme69x_set_heatr_conf BME69X_SEQUENTIAL_MODE exampleHeatr
        (some exampleDev) = BME69X_OK ∧
      bme69x_set_heatr_conf BME69X_SEQUENTIAL_MODE
          { exampleHeatr with profile_len := 0 } (some exampleDev) =
        BME69X_E_INVALID_LENGTH :=
  ⟨(set_heatr_conf_len_validation BME69X_SEQUENTIAL_MODE exampleHeatr
      exampleDev).1 (by decide),
    (set_heatr_conf_len_validation BME69X_SEQUENTIAL_MODE
      { exampleHeatr with profile_len := 0 } exampleDev).2 (Or.inl rfl)⟩

/-- C6: in sequential mode the heater-profile table is consumed cyclically:
the `gas_profile_index` reported for measurement number `k` equals
`k mod profile_len`, and in particular every reported index lies in
`[0, profile_len)`. -/
theorem seq_gas_index_cyclic (len k : Nat) (h : 0 < len) :
    gas_index len k = k % len ∧ gas_index len k < len := by
  have h1 : gas_index len k = k % len := by
    simp [gas_index, seqDeviceStep, seqDeviceRun_cursor len k h]
  exact ⟨h1, h1 ▸ Nat.mod_lt k h⟩

theorem seq_gas_index_cyclic_witness :
    gas_index 10 13 = 13 % 10 ∧ gas_index 10 13 < 10 :=
  seq_gas_index_cyclic 10 13 (by decide)

/-- C4: common.c classifies the no-new-data result code as a warning (and
not as an error), and an iteration of the sequential-mode polling loop whose
poll returns no-new-data with zero fields does not abort the loop: the
remaining poll stream is processed exactly as it would have been, with
`sample_count` unchanged. -/
theorem no_new_data_is_warning_not_abort (conf : Bme69xConf)
    (hc : Bme69xHeatrConf) (sc : Nat) (ps : List PollResult)
    (h : sc ≤ SAMPLE_COUNT) :
    (bme69x_check_rslt BME69X_W_NO_NEW_DATA).isWarning = true ∧
    (bme69x_check_rslt BME69X_W_NO_NEW_DATA).isError = false ∧
    runSeqLoop conf hc sc (noNewPoll :: ps) =
      (seqLoopBody conf hc noNewPoll ++ (runSeqLoop conf hc sc ps).1,
        (runSeqLoop conf hc sc ps).2) := by
  refine ⟨rfl, rfl, ?_⟩
  have h300 : sc ≤ 300 := h
  have hmod : (sc + noNewPoll.n_fields) % 2 ^ 16 = sc := by
    have hp : (2 : Nat) ^ 16 = 65536 := by norm_num
    simp only [noNewPoll, Nat.add_zero, hp]
    omega
  rw [runSeqLoop, if_pos h, hmod]

theorem no_new_data_not_abort_witness :
    runSeqLoop exampleConf exampleHeatr 1 [noNewPoll] =
      (seqLoopBody exampleConf exampleHeatr noNewPoll ++
          (runSeqLoop exampleConf exampleHeatr 1 []).1,
        (runSeqLoop exampleConf exampleHeatr 1 []).2) :=
  (no_new_data_is_warning_not_abort exampleConf exampleHeatr 1 []
    (by decide)).2.2

/-- C1: whenever the sum does not overflow uint32, every blocking delay the
sequential acquisition loop performs is exactly the measurement duration
returned by `bme69x_get_meas_dur` for the current configuration plus the
first heater-profile step's duration converted from milliseconds to
microseconds (times 1000); the value is in microseconds. -/
theorem loop_delay_is_meas_dur_plus_heatr (conf : Bme69xConf)
    (hc : Bme69xHeatrConf)
    (hnof : bme69x_get_meas_dur BME69X_SEQUENTIAL_MODE conf +
        hc.heatr_dur_prof.headD 0 * 1000 < 2 ^ 32)
    (sc : Nat) (polls : List PollResult) (d : Nat)
    (hd : LoopEv.delay d ∈ (runSeqLoop conf hc sc polls).1) :
    d = bme69x_get_meas_dur BME69X_SEQUENTIAL_MODE conf +
        hc.heatr_dur_prof.headD 0 * 1000 := by
  have hdp : del_period conf hc =
      bme69x_get_meas_dur BME69X_SEQUENTIAL_MODE conf +
        hc.heatr_dur_prof.headD 0 * 1000 := by
    unfold del_period
    exact Nat.mod_eq_of_lt hnof
  induction polls generalizing sc with
  | nil => simp [runSeqLoop] at hd
  | cons p ps ih =>
    by_cases hsc : sc ≤ SAMPLE_COUNT
    · rw [runSeqLoop] at hd
      simp only [hsc, if_true, List.mem_append] at hd
      rcases hd with hbody | htail
      · simp only [seqLoopBody, List.mem_cons, List.mem_replicate] at hbody
        rcases hbody with h1 | h1 | h1 | h1 | h1
        · cases h1
          exact hdp
        · cases h1
        · cases h1
        · cases h1
        · cases h1.2
      · exact ih _ htail
    · rw [runSeqLoop] at hd
      simp [hsc] at hd

theorem loop_delay_witness :
    (142590 : Nat) = bme69x_get_meas_dur BME69X_SEQUENTIAL_MODE exampleConf +
      exampleHeatr.heatr_dur_prof.headD 0 * 1000 :=
  loop_delay_is_meas_dur_plus_heatr exampleConf exampleHeatr (by decide)
    1 [noNewPoll] 142590 (by decide)

theorem delayPrecedesPoll_replicate_printField (w n : Nat)
    (rest : List LoopEv) (a : Bool) :
    delayPrecedesPoll w (List.replicate n LoopEv.printField ++ rest) a =
      delayPrecedesPoll w rest a := by
  induction n with
  | zero => rfl
  | succ n ih => simp [List.replicate, delayPrecedesPoll, ih]

theorem delayPrecedesPoll_body (conf : Bme69xConf) (hc : Bme69xHeatrConf)
    (p : PollResult) (rest : List LoopEv) (a : Bool) :
    delayPrecedesPoll (del_period conf hc) (seqLoopBody conf hc p ++ rest) a =
      delayPrecedesPoll (del_period conf hc) rest false := by
  simp [seqLoopBody, delayPrecedesPoll, delayPrecedesPoll_replicate_printField]

/-- C5: in every iteration of the sequential-mode polling loop, the blocking
delay of the computed wait (`del_period`) is executed before
`bme69x_get_data` is called: the loop's event trace passes the checker that
rejects any `getData` not preceded — since the previous poll — by a delay of
at least the computed wait. -/
theorem every_poll_preceded_by_delay (conf : Bme69xConf)
    (hc : Bme69xHeatrConf) (sc : Nat) (polls : List PollResult) :
    delayPrecedesPoll (del_period conf hc)
      (runSeqLoop conf hc sc polls).1 false = true := by
  induction polls generalizing sc with
  | nil => rfl
  | cons p ps ih =>
    by_cases hsc : sc ≤ SAMPLE_COUNT
    · rw [runSeqLoop]
      simp only [hsc, if_true]
      rw [delayPrecedesPoll_body]
      exact ih _
    · rw [runSeqLoop]
      simp [hsc, delayPrecedesPoll]

theorem os_to_meas_cycles_mono :
    ∀ l1 l2 : Fin 6, l1 < l2 → os_to_meas_cycles l1 < os_to_meas_cycles l2 := by
  decide

/-- C7: `bme69x_get_meas_dur` is strictly increasing in the oversampling
level of each of temperature, pressure and humidity with the other settings
held fixed, and changing the IIR filter setting does not change the returned
duration. -/
theorem meas_dur_mono_and_filter_indep :
    (∀ (m : Nat) (c : Bme69xConf) (l1 l2 : Fin 6), l1 < l2 →
      bme69x_get_meas_dur m { c with os_temp := l1 } <
        bme69x_get_meas_dur m { c with os_temp := l2 }) ∧
    (∀ (m : Nat) (c : Bme69xConf) (l1 l2 : Fin 6), l1 < l2 →
      bme69x_get_meas_dur m { c with os_pres := l1 } <
        bme69x_get_meas_dur m { c with os_pres := l2 }) ∧
    (∀ (m : Nat) (c : Bme69xConf) (l1 l2 : Fin 6), l1 < l2 →
      bme69x_get_meas_dur m { c with os_hum := l1 } <
        bme69x_get_meas_dur m { c with os_hum := l2 }) ∧
    (∀ (m : Nat) (c : Bme69xConf) (f : Nat),
      bme69x_get_meas_dur m { c with filter := f } =
        bme69x_get_meas_dur m c) := by
  refine ⟨?_, ?_, ?_, ?_⟩
  · intro m c l1 l2 h
    have hmono := os_to_meas_cycles_mono l1 l2 h
    rcases eq_or_ne m BME69X_PARALLEL_MODE with hm | hm <;>
      simp [bme69x_get_meas_dur, hm] <;> omega
  · intro m c l1 l2 h
    have hmono := os_to_meas_cycles_mono l1 l2 h
    rcases eq_or_ne m BME69X_PARALLEL_MODE with hm | hm <;>
      simp [bme69x_get_meas_dur, hm] <;> omega
  · intro m c l1 l2 h
    have hmono := os_to_meas_cycles_mono l1 l2 h
    rcases eq_or_ne m BME69X_PARALLEL_MODE with hm | hm <;>
      simp [bme69x_get_meas_dur, hm] <;> omega
  · intro m c f
    rfl

theorem meas_dur_mono_witness :
    bme69x_get_meas_dur BME69X_SEQUENTIAL_MODE
        { exampleConf with os_temp := 0 } <
      bme69x_get_meas_dur BME69X_SEQUENTIAL_MODE
        { exampleConf with os_temp := 1 } ∧
    bme69x_get_meas_dur BME69X_SEQUENTIAL_MODE
        { exampleConf with os_pres := 0 } <
      bme69x_get_meas_dur BME69X_SEQUENTIAL_MODE
        { exampleConf with os_pres := 1 } ∧
    bme69x_get_meas_dur BME69X_SEQUENTIAL_MODE
        { exampleConf with os_hum := 0 } <
      bme69x_get_meas_dur BME69X_SEQUENTIAL_MODE
        { exampleConf with os_hum := 1 } ∧
    bme69x_get_meas_dur BME69X_SEQUENTIAL_MODE
        { exampleConf with filter := 127 } =
      bme69x_get_meas_dur BME69X_SEQUENTIAL_MODE exampleConf :=
  ⟨meas_dur_mono_and_filter_indep.1 BME69X_SEQUENTIAL_MODE exampleConf 0 1
      (by decide),
    meas_dur_mono_and_filter_indep.2.1 BME69X_SEQUENTIAL_MODE exampleConf 0 1
      (by decide),
    meas_dur_mono_and_filter_indep.2.2.1 BME69X_SEQUENTIAL_MODE exampleConf 0 1
      (by decide),
    meas_dur_mono_and_filter_indep.2.2.2 BME69X_SEQUENTIAL_MODE exampleConf 127⟩

/-- C3 counterexample: with the board connection succeeding, the board info
read succeeding, and a shuttle ID (0x42) that is not the BME690's (0x93),
`bme69x_interface_init` returns `BME69X_OK` — it neither returns
`BME69X_E_DEV_NOT_FOUND` nor exits the process, and the only reaction to the
wrong shuttle is a printed warning. -/
theorem interface_init_wrong_shuttle_returns_ok :
    (bme69x_interface_init
        { openCommResult := 0, boardInfoResult := 0, shuttle_id := 0x42 } 0
        (some exampleDev) BME69X_I2C_INTF).outcome =
      InitOutcome.returned BME69X_OK ∧
    BME69X_OK ≠ BME69X_E_DEV_NOT_FOUND ∧
    CoinesEv.printWarnShuttle 0x42 BME69X_SHUTTLE_ID ∈
      (bme69x_interface_init
        { openCommResult := 0, boardInfoResult := 0, shuttle_id := 0x42 } 0
        (some exampleDev) BME69X_I2C_INTF).events := by
  refine ⟨by decide, by decide, by decide⟩

/-- C3 (amended): the reference example aborts the process only for an
init-time failure to open the communication interface (it exits with that
failure code); when the connected board is not the expected BME690 shuttle,
`bme69x_interface_init` merely prints a warning and continues, returning
`BME69X_OK` rather than DeviceNotFound. -/
theorem interface_init_abort_and_shuttle_warning (env : CoinesEnv) (da : Nat)
    (b : Bme69xDev) (intf : Nat)
    (hfail : env.openCommResult < COINES_SUCCESS) :
    (bme69x_interface_init env da (some b) intf).outcome =
      InitOutcome.exited env.openCommResult ∧
    CoinesEv.exitProc env.openCommResult ∈
      (bme69x_interface_init env da (some b) intf).events ∧
    (∀ env2 : CoinesEnv, COINES_SUCCESS ≤ env2.openCommResult →
      (bme69x_interface_init env2 da (some b) intf).outcome =
        InitOutcome.returned BME69X_OK ∧
      (env2.boardInfoResult = COINES_SUCCESS →
        env2.shuttle_id ≠ BME69X_SHUTTLE_ID →
        CoinesEv.printWarnShuttle env2.shuttle_id BME69X_SHUTTLE_ID ∈
          (bme69x_interface_init env2 da (some b) intf).events)) := by
  refine ⟨by simp [bme69x_interface_init, hfail],
    by simp [bme69x_interface_init, hfail], ?_⟩
  intro env2 hopen
  have hnl : ¬ env2.openCommResult < COINES_SUCCESS := not_lt.mpr hopen
  by_cases hi : intf = BME69X_I2C_INTF
  · constructor
    · simp [bme69x_interface_init, hnl, hi]
    · intro hb hs
      simp [bme69x_interface_init, hnl, hi, hb, hs]
  · by_cases hs2 : intf = BME69X_SPI_INTF
    · constructor
      · simp [bme69x_interface_init, hnl, hi, hs2, BME69X_SPI_INTF,
          BME69X_I2C_INTF]
      · intro hb hs
        simp [bme69x_interface_init, hnl, hi, hs2, hb, hs, BME69X_SPI_INTF,
          BME69X_I2C_INTF]
    · constructor
      · simp [bme69x_interface_init, hnl, hi, hs2]
      · intro hb hs
        simp [bme69x_interface_init, hnl, hi, hs2, hb, hs]

theorem interface_init_abort_witness :
    (bme69x_interface_init
        { openCommResult := -1, boardInfoResult := 0, shuttle_id := 0x93 } 0
        (some exampleDev) BME69X_I2C_INTF).outcome =
      InitOutcome.exited (-1) ∧
    CoinesEv.exitProc (-1) ∈
      (bme69x_interface_init
        { openCommResult := -1, boardInfoResult := 0, shuttle_id := 0x93 } 0
        (some exampleDev) BME69X_I2C_INTF).events ∧
    (bme69x_interface_init
        { openCommResult := 0, boardInfoResult := 0, shuttle_id := 0x42 } 0
        (some exampleDev) BME69X_I2C_INTF).outcome =
      InitOutcome.returned BME69X_OK :=
  ⟨(interface_init_abort_and_shuttle_warning
      { openCommResult := -1, boardInfoResult := 0, shuttle_id := 0x93 } 0
      exampleDev BME69X_I2C_INTF (by decide)).1,
    (interface_init_abort_and_shuttle_warning
      { openCommResult := -1, boardInfoResult := 0, shuttle_id := 0x93 } 0
      exampleDev BME69X_I2C_INTF (by decide)).2.1,
    ((interface_init_abort_and_shuttle_warning
      { openCommResult := -1, boardInfoResult := 0, shuttle_id := 0x93 } 0
      exampleDev BME69X_I2C_INTF (by decide)).2.2
      { openCommResult := 0, boardInfoResult := 0, shuttle_id := 0x42 }
      (by decide)).1⟩

/-- C9: the device bus address lives in one process-wide static slot:
`bme69x_interface_init` (for either supported interface) writes the static
`dev_addr` slot and sets the handle's `intf_ptr` to the address of that same
slot, and all four bus wrappers obtain the device address by dereferencing
`intf_ptr` — so every handle initialized through this function reads whatever
the shared slot currently holds. -/
theorem single_static_dev_addr_slot (env : CoinesEnv) (da : Nat)
    (b : Bme69xDev) (intf : Nat)
    (hopen : COINES_SUCCESS ≤ env.openCommResult)
    (hintf : intf = BME69X_I2C_INTF ∨ intf = BME69X_SPI_INTF) :
    (∃ b2 : Bme69xDev,
      (bme69x_interface_init env da (some b) intf).bme = some b2 ∧
        b2.intf_ptr = Ptr.devAddrSlot) ∧
    (bme69x_interface_init env da (some b) intf).dev_addr =
      (if intf = BME69X_I2C_INTF then BME69X_I2C_ADDR_LOW
        else COINES_SHUTTLE_PIN_7) ∧
    (∀ (da2 : Nat) (mem : Nat → Nat) (reg len : Nat),
      (bme69x_i2c_read da2 mem reg len Ptr.devAddrSlot).device_addr = da2 ∧
      (bme69x_i2c_write da2 mem reg len Ptr.devAddrSlot).device_addr = da2 ∧
      (bme69x_spi_read da2 mem reg len Ptr.devAddrSlot).device_addr = da2 ∧
      (bme69x_spi_write da2 mem reg len Ptr.devAddrSlot).device_addr = da2) := by
  have hnl : ¬ env.openCommResult < COINES_SUCCESS := not_lt.mpr hopen
  refine ⟨?_, ?_, fun da2 mem reg len => ⟨rfl, rfl, rfl, rfl⟩⟩
  · rcases hintf with hi | hi <;>
      subst hi <;>
      simp [bme69x_interface_init, hnl, BME69X_SPI_INTF, BME69X_I2C_INTF]
  · rcases hintf with hi | hi <;>
      subst hi <;>
      simp [bme69x_interface_init, hnl, BME69X_SPI_INTF, BME69X_I2C_INTF]

theorem single_static_dev_addr_slot_witness :
    (∃ b2 : Bme69xDev,
      (bme69x_interface_init
          { openCommResult := 0, boardInfoResult := 0, shuttle_id := 0x93 } 0
          (some exampleDev) BME69X_I2C_INTF).bme = some b2 ∧
        b2.intf_ptr = Ptr.devAddrSlot) ∧
    (bme69x_interface_init
        { openCommResult := 0, boardInfoResult := 0, shuttle_id := 0x93 } 0
        (some exampleDev) BME69X_I2C_INTF).dev_addr =
      (if BME69X_I2C_INTF = BME69X_I2C_INTF then BME69X_I2C_ADDR_LOW
        else COINES_SHUTTLE_PIN_7) ∧
    (∀ (da2 : Nat) (mem : Nat → Nat) (reg len : Nat),
      (bme69x_i2c_read da2 mem reg len Ptr.devAddrSlot).device_addr = da2 ∧
      (bme69x_i2c_write da2 mem reg len Ptr.devAddrSlot).device_addr = da2 ∧
      (bme69x_spi_read da2 mem reg len Ptr.devAddrSlot).device_addr = da2 ∧
      (bme69x_spi_write da2 mem reg len Ptr.devAddrSlot).device_addr = da2) :=
  single_static_dev_addr_slot
    { openCommResult := 0, boardInfoResult := 0, shuttle_id := 0x93 } 0
    exampleDev BME69X_I2C_INTF (by decide) (Or.inl rfl)

/-- C10: for an interface selector that is neither I2C nor SPI,
`bme69x_interface_init` with a non-NULL handle (and a working board
connection) still returns `BME69X_OK` and sets `delay_us`, `intf_ptr` and
`amb_temp` (to 25), but leaves the handle's `read`, `write` and `intf`
fields exactly as they were and the static `dev_addr` unchanged: no error is
reported for the invalid interface choice. -/
theorem interface_init_unknown_intf (env : CoinesEnv) (da : Nat)
    (b : Bme69xDev) (intf : Nat)
    (hopen : COINES_SUCCESS ≤ env.openCommResult)
    (h1 : intf ≠ BME69X_I2C_INTF) (h2 : intf ≠ BME69X_SPI_INTF) :
    (bme69x_interface_init env da (some b) intf).outcome =
      InitOutcome.returned BME69X_OK ∧
    (bme69x_interface_init env da (some b) intf).dev_addr = da ∧
    ∃ b2 : Bme69xDev,
      (bme69x_interface_init env da (some b) intf).bme = some b2 ∧
      b2.read = b.read ∧ b2.write = b.write ∧ b2.intf = b.intf ∧
      b2.delay_us = some DelayFn.delayUs ∧
      b2.intf_ptr = Ptr.devAddrSlot ∧ b2.amb_temp = 25 := by
  have hnl : ¬ env.openCommResult < COINES_SUCCESS := not_lt.mpr hopen
  refine ⟨?_, ?_, ?_⟩
  · simp [bme69x_interface_init, hnl, h1, h2]
  · simp [bme69x_interface_init, hnl, h1, h2]
  · refine ⟨{ b with
      delay_us := some DelayFn.delayUs,
      intf_ptr := Ptr.devAddrSlot, amb_temp := 25 }, ?_, rfl, rfl, rfl, rfl,
      rfl, rfl⟩
    simp [bme69x_interface_init, hnl, h1, h2]

theorem interface_init_unknown_intf_witness :
    (bme69x_interface_init
        { openCommResult := 0, boardInfoResult := 0, shuttle_id := 0x93 } 7
        (some exampleDev) 2).outcome = InitOutcome.returned BME69X_OK ∧
    (bme69x_interface_init
        { openCommResult := 0, boardInfoResult := 0, shuttle_id := 0x93 } 7
        (some exampleDev) 2).dev_addr = 7 ∧
    ∃ b2 : Bme69xDev,
      (bme69x_interface_init
          { openCommResult := 0, boardInfoResult := 0, shuttle_id := 0x93 } 7
          (some exampleDev) 2).bme = some b2 ∧
      b2.read = exampleDev.read ∧ b2.write = exampleDev.write ∧
      b2.intf = exampleDev.intf ∧ b2.delay_us = some DelayFn.delayUs ∧
      b2.intf_ptr = Ptr.devAddrSlot ∧ b2.amb_temp = 25 :=
  interface_init_unknown_intf
    { openCommResult := 0, boardInfoResult := 0, shuttle_id := 0x93 } 7
    exampleDev 2 (by decide) (by decide) (by decide)
